import Mathlib

/-!
Verification development for the MicrogridSystem firmware repository.

Two firmware variants are embedded:
* `src/ESP/src/main.cpp` — single INA219 sensor, five per-metric string
  payloads plus an aggregate status payload ("online"/"error").
* `src/NodeMCU_PIO/src/main.cpp` — three INA219 sensors (zones), one
  structured JSON payload per zone.

Sensor readings are modelled as rationals; the millisecond counter of the
ESP variant is modelled as a natural number reduced mod 2^32 (the C type is
a 32-bit `unsigned long`).  External collaborators (WiFi stack, MQTT
client, sensor driver) are modelled as oracles: a publish-result oracle for
`client.publish`, a connectivity oracle for the blocking retry loops.
-/

namespace Microgrid

/-! ### ESP variant: configuration constants (src/ESP/src/main.cpp lines 16-24) -/

def topic_bus_voltage : String := "microgrid/sensor/bus_voltage"

def topic_shunt_voltage : String := "microgrid/sensor/shunt_voltage"

def topic_load_voltage : String := "microgrid/sensor/load_voltage"

def topic_current : String := "microgrid/sensor/current"

def topic_power : String := "microgrid/sensor/power"

def topic_status : String := "microgrid/sensor/status"

/-- `const unsigned long sensor_interval = 5000;` -/
def sensor_interval : ℕ := 5000

/-- 2^32, the modulus of the `unsigned long` millisecond counter. -/
def U32 : ℕ := 4294967296

/-- Unsigned 32-bit subtraction `a - b` (wraparound semantics of
`unsigned long` on the ESP8266). -/
def u32sub (a b : ℕ) : ℕ := (a % U32 + (U32 - b % U32)) % U32

/-- The tick guard of the ESP loop: `if (now - lastMsg > sensor_interval)`
(src/ESP/src/main.cpp line 142), in unsigned 32-bit arithmetic. -/
def tickFires (lastMsg now : ℕ) : Bool := decide (sensor_interval < u32sub now lastMsg)

/-! ### dtostrf model

The ESP variant formats every metric with `dtostrf(value, 6, 3, buf)`
(src/ESP/src/main.cpp lines 164-168): 3 digits after the decimal point,
right-justified in a *minimum* field width of 6 characters (AVR libc
semantics; wider values produce longer strings).  The float argument is
modelled as a rational; rounding to 3 decimals is round-half-up on the
magnitude. -/

/-- Exactly three decimal digit characters of `n % 1000`, zero padded. -/
def natDigits3 (n : ℕ) : String :=
  String.mk [Nat.digitChar (n / 100 % 10), Nat.digitChar (n / 10 % 10), Nat.digitChar (n % 10)]

/-- Right-justify a string in a minimum field width of 6 by prepending
spaces (shorter strings are padded, longer strings are kept whole). -/
def padTo6 (s : String) : String :=
  String.mk (List.replicate (6 - s.length) ' ') ++ s

/-- The value scaled to thousandths and rounded (half up). -/
def round3 (v : ℚ) : ℤ := ⌊v * 1000 + 1 / 2⌋

/-- The unpadded text of `dtostrf(v, 6, 3, buf)`: optional sign, integer
part, decimal point, exactly three fraction digits. -/
def dtostrf63core (v : ℚ) : String :=
  let m : ℕ := (round3 |v|).toNat
  (if v < 0 then "-" else "") ++ toString (m / 1000) ++ "." ++ natDigits3 (m % 1000)

/-- Model of `dtostrf(v, 6, 3, buf)`. -/
def dtostrf63 (v : ℚ) : String :=
  padTo6 (dtostrf63core v)

/-! ### ESP variant: the tick body (src/ESP/src/main.cpp lines 144-213) -/

/-- One fresh set of INA219 readings, as returned by the four getter calls
of the tick body (lines 146-149). -/
structure Reading where
  shuntvoltage : ℚ
  busvoltage : ℚ
  current_mA : ℚ
  power_mW : ℚ

/-- What a single ESP tick publishes: the five metric publishes in program
order, each with its topic, payload and the transport's success result,
followed by the status payload (whose own publish result is discarded by
the code). -/
structure EspTickResult where
  publishes : List (String × String × Bool)
  statusPayload : String

/-- The tick body of the ESP loop (lines 144-213): read the sensor, format
the five metrics with `dtostrf(·, 6, 3, ·)`, publish each to its topic,
fold each publish result into `allPublished` exactly as the five
`if (!client.publish(...)) allPublished = false;` blocks do, and publish
`"online"` or `"error"` on the status topic.  `res i` is the transport's
result for the i-th publish call. -/
def espTick (r : Reading) (res : Fin 5 → Bool) : EspTickResult :=
  let shuntvoltage := r.shuntvoltage
  let busvoltage := r.busvoltage
  let current_mA := r.current_mA
  let power_mW := r.power_mW
  let loadvoltage := busvoltage + shuntvoltage / 1000
  let busVoltageStr := dtostrf63 busvoltage
  let shuntVoltageStr := dtostrf63 shuntvoltage
  let loadVoltageStr := dtostrf63 loadvoltage
  let currentStr := dtostrf63 current_mA
  let powerStr := dtostrf63 power_mW
  let allPublished := true
  let allPublished := if !(res 0) then false else allPublished
  let allPublished := if !(res 1) then false else allPublished
  let allPublished := if !(res 2) then false else allPublished
  let allPublished := if !(res 3) then false else allPublished
  let allPublished := if !(res 4) then false else allPublished
  let statusMsg := if allPublished then "online" else "error"
  ⟨[(topic_bus_voltage, busVoltageStr, res 0),
    (topic_shunt_voltage, shuntVoltageStr, res 1),
    (topic_load_voltage, loadVoltageStr, res 2),
    (topic_current, currentStr, res 3),
    (topic_power, powerStr, res 4)],
   statusMsg⟩

/-! ### ESP variant: loop iterations and the process state machine -/

/-- Observable events of one ESP loop iteration, in program order.
`wifiReconnect` stands for a completed `setup_wifi()` call and
`mqttReconnect` for a completed `reconnect_mqtt()` call; both block until
connected.  `mqttService` is `client.loop()`. -/
inductive Ev
  | wifiReconnect
  | mqttReconnect
  | mqttService
  | sensorRead (metric : String)
  | pub (topic payload : String)

def Ev.isPub : Ev → Bool
  | .pub _ _ => true
  | _ => false

def Ev.isRead : Ev → Bool
  | .sensorRead _ => true
  | _ => false

def Ev.isMqttReconnect : Ev → Bool
  | .mqttReconnect => true
  | _ => false

/-- The events emitted by the tick body: the four sensor getter calls
(lines 146-149) followed by the five metric publishes and the status
publish (lines 175-202). -/
def espTickEvents (r : Reading) (res : Fin 5 → Bool) : List Ev :=
  [Ev.sensorRead "shunt_voltage", Ev.sensorRead "bus_voltage",
   Ev.sensorRead "current", Ev.sensorRead "power"]
  ++ (espTick r res).publishes.map (fun e => Ev.pub e.1 e.2.1)
  ++ [Ev.pub topic_status (espTick r res).statusPayload]

/-- The mutable state the ESP loop carries between iterations: the two
connection flags and `lastMsg` (a `u32` millisecond value). -/
structure EspState where
  wifiUp : Bool
  mqttUp : Bool
  lastMsg : ℕ

/-- One iteration of the ESP `loop()` (lines 124-215): reconnect WiFi if it
is down, reconnect MQTT if it is down (both reconnect loops block until
connected, so both flags are true afterwards), run `client.loop()`, then
run the tick body when `now - lastMsg > sensor_interval` and set
`lastMsg := now`. -/
def espLoopIter (st : EspState) (now : ℕ) (r : Reading) (res : Fin 5 → Bool) :
    EspState × List Ev :=
  let wifiEvs := if st.wifiUp then ([] : List Ev) else [Ev.wifiReconnect]
  let mqttEvs := if st.mqttUp then ([] : List Ev) else [Ev.mqttReconnect]
  let fire := tickFires st.lastMsg now
  let tickEvs := if fire then espTickEvents r res else []
  (⟨true, true, if fire then now % U32 else st.lastMsg⟩,
   wifiEvs ++ mqttEvs ++ [Ev.mqttService] ++ tickEvs)

/-- The environment of one loop iteration: the current `millis()` value,
the sensor readings it would deliver, and the publish results the
transport would return. -/
structure EspInput where
  now : ℕ
  reading : Reading
  res : Fin 5 → Bool

/-- Whole-process state of the ESP firmware.  `halted` is the
`while (1) { delay(10); }` loop entered when `ina219.begin()` fails in
`setup()` (lines 86-91); `running` is the normal loop. -/
inductive EspProc
  | halted
  | running (st : EspState)

/-- One scheduler step of the ESP process: the halt loop only delays and
stays halted, emitting no event; a running process performs one loop
iteration. -/
def espStep : EspProc → EspInput → EspProc × List Ev
  | .halted, _ => (.halted, [])
  | .running st, i =>
      let p := espLoopIter st i.now i.reading i.res
      (.running p.1, p.2)

/-- Run the ESP process over a list of iteration inputs, collecting all
emitted events. -/
def espRun : EspProc → List EspInput → List Ev
  | _, [] => []
  | p, i :: is =>
      let s := espStep p i
      s.2 ++ espRun s.1 is

/-- `setup()` of the ESP variant (lines 75-122): if `ina219.begin()` fails
the process is stuck in `while (1) { delay(10); }`; otherwise WiFi is
joined (blocking until connected), the MQTT server is configured but not
yet connected, and `lastMsg` is 0. -/
def espSetup (sensorInitOk : Bool) : EspProc :=
  if sensorInitOk then .running ⟨true, false, 0⟩ else .halted

/-! ### Blocking connectivity retry loops

`setup_wifi()` (both variants, ESP lines 40-43): `while (status != connected)
{ delay(500); }` — 500 ms per failed check, unbounded.
`reconnect_mqtt()` (ESP lines 54-73) and `reconnect()` (NodeMCU lines
74-91): attempt `client.connect`, on failure `delay(5000)`, unbounded.

`oracle k` tells whether the k-th connectivity check (attempt) succeeds;
`fuel` bounds the number of checks we unfold (the code itself is
unbounded: exhausting fuel means the code is still inside the loop, which
the model reports as `none`).  On success at attempt `k` the loop returns
the total blocked retry delay `delayMs * k`. -/

def retryLoop (delayMs : ℕ) (oracle : ℕ → Bool) : ℕ → ℕ → Option ℕ
  | 0, _ => none
  | fuel + 1, k => if oracle k then some (delayMs * k) else retryLoop delayMs oracle fuel (k + 1)

/-- The WiFi join retry loop of `setup_wifi`: 500 ms per failed check. -/
def setup_wifi (oracle : ℕ → Bool) (fuel : ℕ) : Option ℕ := retryLoop 500 oracle fuel 0

/-- The MQTT retry loop of the ESP variant's `reconnect_mqtt`: 5000 ms per
failed attempt. -/
def reconnect_mqtt (oracle : ℕ → Bool) (fuel : ℕ) : Option ℕ := retryLoop 5000 oracle fuel 0

/-- The MQTT retry loop of the NodeMCU variant's `reconnect`: 5000 ms per
failed attempt. -/
def reconnect (oracle : ℕ → Bool) (fuel : ℕ) : Option ℕ := retryLoop 5000 oracle fuel 0

/-! ### NodeMCU variant (src/NodeMCU_PIO/src/main.cpp) -/

/-- The `ZoneReadings` struct (lines 29-33). -/
structure ZoneReadings where
  current_mA : ℚ
  power_mW : ℚ
  busvoltage : ℚ

/-- The content of the JSON document built by `publishZoneData`
(lines 128-134): exactly the six fields, in the modelled structured form. -/
structure ZonePayload where
  node_id : String
  zone_id : String
  timestamp : ℤ
  current_mA : ℚ
  voltage_V : ℚ
  power_mW : ℚ

/-- `publishZoneData(zone_id, topic, readings, timestamp)` (lines 126-147):
builds the JSON document from its own arguments only and publishes it to
`topic`.  The boolean returned by `client.publish` is discarded by the
code, so the function's observable outcome is just the (topic, payload)
pair. -/
def publishZoneData (zone_id topic : String) (readings : ZoneReadings) (timestamp : ℤ) :
    String × ZonePayload :=
  (topic,
   ⟨"node1", zone_id, timestamp, readings.current_mA, readings.busvoltage, readings.power_mW⟩)

/-- Everything a NodeMCU tick stores or emits: the three global
`zoneN_readings` structs after the tick, the updated `lastMsg`, and the
three zone publishes in order.  The publish-result oracle `res` is the
transport's answer to each of the three `client.publish` calls; the code
never looks at those answers. -/
structure NodeTickResult where
  zone1_readings : ZoneReadings
  zone2_readings : ZoneReadings
  zone3_readings : ZoneReadings
  lastMsg : ℤ
  publishes : List (String × ZonePayload)

/-- The tick body of the NodeMCU loop (lines 156-204): read all three
zones' sensors into the globals, then call `publishZoneData` once per
zone.  `r1 r2 r3` are the values the three sensors deliver this tick,
`now` the `millis()` value, `res` the transport's publish results
(discarded, exactly as in the code). -/
def nodeTick (r1 r2 r3 : ZoneReadings) (now : ℤ) (_res : Fin 3 → Bool) : NodeTickResult :=
  ⟨r1, r2, r3, now,
   [publishZoneData "zone1" "/node1/zone1" r1 now,
    publishZoneData "zone2" "/node1/zone2" r2 now,
    publishZoneData "zone3" "/node1/zone3" r3 now]⟩

/-- Observable events of the NodeMCU loop, with the structured payload
kept structured (the JSON document content). -/
inductive NEv
  | mqttReconnect
  | mqttService
  | sensorRead (zone metric : String)
  | pub (topic : String) (payload : ZonePayload)

def NEv.isPub : NEv → Bool
  | .pub _ _ => true
  | _ => false

def NEv.isRead : NEv → Bool
  | .sensorRead _ _ => true
  | _ => false

def NEv.isMqttReconnect : NEv → Bool
  | .mqttReconnect => true
  | _ => false

/-- Events of the NodeMCU tick body in program order (lines 159-175): the
nine sensor getter calls — current, power, bus voltage for zone 1, then
zone 2, then zone 3 — followed by the three zone publishes. -/
def nodeTickEvents (r1 r2 r3 : ZoneReadings) (now : ℤ) : List NEv :=
  [NEv.sensorRead "zone1" "current_mA", NEv.sensorRead "zone1" "power_mW",
   NEv.sensorRead "zone1" "busvoltage",
   NEv.sensorRead "zone2" "current_mA", NEv.sensorRead "zone2" "power_mW",
   NEv.sensorRead "zone2" "busvoltage",
   NEv.sensorRead "zone3" "current_mA", NEv.sensorRead "zone3" "power_mW",
   NEv.sensorRead "zone3" "busvoltage"]
  ++ [NEv.pub "/node1/zone1" (publishZoneData "zone1" "/node1/zone1" r1 now).2,
      NEv.pub "/node1/zone2" (publishZoneData "zone2" "/node1/zone2" r2 now).2,
      NEv.pub "/node1/zone3" (publishZoneData "zone3" "/node1/zone3" r3 now).2]

/-- Loop-carried state of the NodeMCU variant: the MQTT flag and `lastMsg`
(a signed `long`, modelled as ℤ; no claim depends on its overflow). -/
structure NodeState where
  mqttUp : Bool
  lastMsg : ℤ

/-- Environment of one NodeMCU loop iteration. -/
structure NodeInput where
  now : ℤ
  r1 : ZoneReadings
  r2 : ZoneReadings
  r3 : ZoneReadings

/-- One iteration of the NodeMCU `loop()` (lines 149-205): reconnect MQTT
if down (blocking), `client.loop()`, then the tick body when
`now - lastMsg > 5000`. -/
def nodeLoopIter (st : NodeState) (i : NodeInput) : NodeState × List NEv :=
  let mqttEvs := if st.mqttUp then ([] : List NEv) else [NEv.mqttReconnect]
  let fire := decide (5000 < i.now - st.lastMsg)
  let tickEvs := if fire then nodeTickEvents i.r1 i.r2 i.r3 i.now else []
  (⟨true, if fire then i.now else st.lastMsg⟩,
   mqttEvs ++ [NEv.mqttService] ++ tickEvs)

/-- Whole-process state of the NodeMCU firmware; `halted` is any of the
three `while (1) { delay(10); }` loops of `setup()` (lines 97-116). -/
inductive NodeProc
  | halted
  | running (st : NodeState)

def nodeStep : NodeProc → NodeInput → NodeProc × List NEv
  | .halted, _ => (.halted, [])
  | .running st, i =>
      let p := nodeLoopIter st i
      (.running p.1, p.2)

def nodeRun : NodeProc → List NodeInput → List NEv
  | _, [] => []
  | p, i :: is =>
      let s := nodeStep p i
      s.2 ++ nodeRun s.1 is

/-- `setup()` of the NodeMCU variant (lines 93-124): if any of the three
`ina219_zoneN.begin()` calls fails the process is stuck in its
`while (1) { delay(10); }` loop; otherwise WiFi is joined and the MQTT
server configured, with `lastMsg` still 0. -/
def nodeSetup (initOk1 initOk2 initOk3 : Bool) : NodeProc :=
  if initOk1 && initOk2 && initOk3 then .running ⟨false, 0⟩ else .halted

/-! ### Helper lemmas -/

/-- The status payload computed by the ESP tick equals the conjunction of
the five per-metric publish results. -/
theorem espTick_statusPayload (r : Reading) (res : Fin 5 → Bool) :
    (espTick r res).statusPayload =
      if res 0 && res 1 && res 2 && res 3 && res 4 then "online" else "error" := by
  cases h0 : res 0 <;> cases h1 : res 1 <;> cases h2 : res 2 <;> cases h3 : res 3 <;>
    cases h4 : res 4 <;> simp [espTick, h0, h1, h2, h3, h4]

/-! ### C1 -/

/-- C1: in the per-metric (ESP) variant, the payload published on the
status topic in a tick is "online" iff all five metric publishes of that
tick succeeded, and is "error" whenever any of them failed. -/
theorem esp_status_online_iff (r : Reading) (res : Fin 5 → Bool) :
    ((espTick r res).statusPayload = "online" ↔
      (res 0 = true ∧ res 1 = true ∧ res 2 = true ∧ res 3 = true ∧ res 4 = true)) ∧
    ((res 0 = false ∨ res 1 = false ∨ res 2 = false ∨ res 3 = false ∨ res 4 = false) →
      (espTick r res).statusPayload = "error") := by
  rw [espTick_statusPayload]
  cases h0 : res 0 <;> cases h1 : res 1 <;> cases h2 : res 2 <;> cases h3 : res 3 <;>
    cases h4 : res 4 <;> simp

/-- Witness for C1 at a concrete tick: with every publish succeeding the
status payload is "online", and with one failed publish it is "error". -/
theorem esp_status_online_iff_witness :
    (espTick ⟨1, 2, 3, 4⟩ (fun _ => true)).statusPayload = "online" ∧
    (espTick ⟨1, 2, 3, 4⟩ (fun i => decide (i ≠ 2))).statusPayload = "error" :=
  ⟨(esp_status_online_iff ⟨1, 2, 3, 4⟩ (fun _ => true)).1.mpr ⟨rfl, rfl, rfl, rfl, rfl⟩,
   (esp_status_online_iff ⟨1, 2, 3, 4⟩ (fun i => decide (i ≠ 2))).2 (Or.inr (Or.inr (Or.inl rfl)))⟩

/-! ### C9 -/

/-- C9: in the single-sensor (ESP) variant, the payload published on the
load-voltage topic of a tick is exactly the formatted value of
`busvoltage + shuntvoltage / 1000`, computed from the same tick's
readings (exact arithmetic in the rational model). -/
theorem esp_load_voltage_derivation (r : Reading) (res : Fin 5 → Bool) :
    (espTick r res).publishes[2]? =
      some (topic_load_voltage, dtostrf63 (r.busvoltage + r.shuntvoltage / 1000), res 2) := rfl

/-! ### C10 -/

/-- C10: a tick of the ESP loop fires iff the unsigned 32-bit difference
`now - lastMsg` exceeds `sensor_interval`; when the real elapsed time
between the stored `lastMsg` instant `t1` and the current instant `t2` is
below 2^32, this modular test agrees exactly with the real elapsed time —
so a tick fires iff strictly more than 5000 ms have really passed, also
across the 32-bit millisecond-counter wraparound. -/
theorem esp_tick_schedule_u32 (t1 t2 : ℕ) (h1 : t1 ≤ t2) (h2 : t2 - t1 < U32) :
    (tickFires (t1 % U32) (t2 % U32) = true ↔ sensor_interval < t2 - t1) ∧
    (∀ lastMsg now : ℕ, tickFires lastMsg now = true ↔ sensor_interval < u32sub now lastMsg) := by
  constructor
  · simp only [tickFires, u32sub, sensor_interval, U32, decide_eq_true_eq] at h2 ⊢
    omega
  · intro lastMsg now
    simp [tickFires]

/-- Witness for C10 straddling the counter wraparound: the previous tick
fired 100 ms before the counter wrapped, the current instant is 5001 ms
after the wrap, 5101 real ms apart, and the tick fires. -/
theorem esp_tick_schedule_u32_witness :
    tickFires (4294967196 % U32) (4294972297 % U32) = true :=
  (esp_tick_schedule_u32 4294967196 4294972297 (by norm_num) (by norm_num [U32])).1.mpr
    (by norm_num [sensor_interval])

/-! ### C2 -/

/-- C2: in both variants, when the MQTT transport is disconnected at the
start of a loop iteration, the iteration contains a completed reconnect,
and no publish event occurs before that reconnect — every publish of the
iteration happens only after connectivity has been re-established. -/
theorem no_publish_while_disconnected (st : EspState) (now : ℕ) (r : Reading)
    (res : Fin 5 → Bool) (nst : NodeState) (i : NodeInput)
    (h : st.mqttUp = false) (hn : nst.mqttUp = false) :
    ((espLoopIter st now r res).2.any Ev.isMqttReconnect = true ∧
     ((espLoopIter st now r res).2.takeWhile (fun e => !e.isMqttReconnect)).all
       (fun e => !e.isPub) = true) ∧
    ((nodeLoopIter nst i).2.any NEv.isMqttReconnect = true ∧
     ((nodeLoopIter nst i).2.takeWhile (fun e => !e.isMqttReconnect)).all
       (fun e => !e.isPub) = true) := by
  obtain ⟨w, m, l⟩ := st
  obtain ⟨nm, nl⟩ := nst
  simp only at h hn
  subst h
  subst hn
  cases w <;>
    simp [espLoopIter, nodeLoopIter, List.takeWhile, Ev.isMqttReconnect, NEv.isMqttReconnect,
      Ev.isPub, NEv.isPub]

/-- Witness for C2: both loops start with MQTT down and a tick due; the
events of the iteration reconnect before any publish. -/
theorem no_publish_while_disconnected_witness :
    (((espLoopIter ⟨true, false, 0⟩ 6000 ⟨1, 2, 3, 4⟩ (fun _ => true)).2.any
        Ev.isMqttReconnect = true ∧
      ((espLoopIter ⟨true, false, 0⟩ 6000 ⟨1, 2, 3, 4⟩ (fun _ => true)).2.takeWhile
        (fun e => !e.isMqttReconnect)).all (fun e => !e.isPub) = true) ∧
     ((nodeLoopIter ⟨false, 0⟩ ⟨6000, ⟨1, 2, 3⟩, ⟨4, 5, 6⟩, ⟨7, 8, 9⟩⟩).2.any
        NEv.isMqttReconnect = true ∧
      ((nodeLoopIter ⟨false, 0⟩ ⟨6000, ⟨1, 2, 3⟩, ⟨4, 5, 6⟩, ⟨7, 8, 9⟩⟩).2.takeWhile
        (fun e => !e.isMqttReconnect)).all (fun e => !e.isPub) = true)) :=
  no_publish_while_disconnected ⟨true, false, 0⟩ 6000 ⟨1, 2, 3, 4⟩ (fun _ => true)
    ⟨false, 0⟩ ⟨6000, ⟨1, 2, 3⟩, ⟨4, 5, 6⟩, ⟨7, 8, 9⟩⟩ rfl rfl

/-! ### C3 -/

/-- The ESP halt state emits no event, forever. -/
theorem espRun_halted (is : List EspInput) : espRun EspProc.halted is = [] := by
  induction is with
  | nil => rfl
  | cons i is ih => simpa [espRun, espStep] using ih

/-- The NodeMCU halt state emits no event, forever. -/
theorem nodeRun_halted (is : List NodeInput) : nodeRun NodeProc.halted is = [] := by
  induction is with
  | nil => rfl
  | cons i is ih => simpa [nodeRun, nodeStep] using ih

/-- C3: if sensor initialization fails at startup — `ina219.begin()` in
the ESP variant, any of the three `ina219_zoneN.begin()` in the NodeMCU
variant — the process is permanently halted: over any schedule of
subsequent loop inputs, no sensor read and no publish is ever issued. -/
theorem sensor_init_failure_halts (isE : List EspInput) (isN : List NodeInput)
    (o1 o2 o3 : Bool) (h : (o1 && o2 && o3) = false) :
    (espRun (espSetup false) isE).all (fun e => !e.isPub && !e.isRead) = true ∧
    (nodeRun (nodeSetup o1 o2 o3) isN).all (fun e => !e.isPub && !e.isRead) = true := by
  constructor
  · simp [espSetup, espRun_halted]
  · simp [nodeSetup, h, nodeRun_halted]

/-- Witness for C3: zone 1 initialization fails while later inputs would
have delivered readings; nothing is read or published. -/
theorem sensor_init_failure_halts_witness :
    ((false && true && true) = false) ∧
    ((espRun (espSetup false) [⟨6000, ⟨1, 2, 3, 4⟩, fun _ => true⟩]).all
        (fun e => !e.isPub && !e.isRead) = true ∧
     (nodeRun (nodeSetup false true true) [⟨6000, ⟨1, 2, 3⟩, ⟨4, 5, 6⟩, ⟨7, 8, 9⟩⟩]).all
        (fun e => !e.isPub && !e.isRead) = true) :=
  ⟨rfl, sensor_init_failure_halts [⟨6000, ⟨1, 2, 3, 4⟩, fun _ => true⟩]
    [⟨6000, ⟨1, 2, 3⟩, ⟨4, 5, 6⟩, ⟨7, 8, 9⟩⟩] false true true rfl⟩

/-! ### C6 -/

/-- In a list made of a pub-free prefix followed by a read-free suffix,
every read occurs at a smaller index than every publish. -/
theorem reads_before_pubs_of_append (l1 l2 : List NEv)
    (h1 : ∀ e ∈ l1, NEv.isPub e = false) (h2 : ∀ e ∈ l2, NEv.isRead e = false)
    (i j : ℕ) (ei ej : NEv)
    (hi : (l1 ++ l2)[i]? = some ei) (hri : NEv.isRead ei = true)
    (hj : (l1 ++ l2)[j]? = some ej) (hpj : NEv.isPub ej = true) : i < j := by
  have hil : i < l1.length := by
    by_contra hge
    rw [List.getElem?_append_right (Nat.le_of_not_lt hge)] at hi
    have := h2 ei (List.getElem?_mem hi)
    rw [this] at hri
    exact Bool.false_ne_true hri
  have hjl : l1.length ≤ j := by
    by_contra hlt
    rw [List.getElem?_append_left (Nat.lt_of_not_le hlt)] at hj
    have := h1 ej (List.getElem?_mem hj)
    rw [this] at hpj
    exact Bool.false_ne_true hpj
  omega

/-- C6: in the three-zone (NodeMCU) variant, within a tick every sensor
read happens before every publish: any read event of the tick has a
strictly smaller position than any publish event of the same tick. -/
theorem node_reads_before_publishes (r1 r2 r3 : ZoneReadings) (now : ℤ)
    (i j : ℕ) (ei ej : NEv)
    (hi : (nodeTickEvents r1 r2 r3 now)[i]? = some ei) (hri : NEv.isRead ei = true)
    (hj : (nodeTickEvents r1 r2 r3 now)[j]? = some ej) (hpj : NEv.isPub ej = true) :
    i < j := by
  rw [nodeTickEvents] at hi hj
  refine reads_before_pubs_of_append _ _ ?_ ?_ i j ei ej hi hri hj hpj
  · intro e he
    fin_cases he <;> rfl
  · intro e he
    simp only [List.mem_cons, List.not_mem_nil, or_false] at he
    rcases he with h | h | h <;> subst h <;> rfl

/-- Witness for C6: at a concrete tick, the first event is a zone-1 read,
the tenth is the zone-1 publish, and the read's index is smaller. -/
theorem node_reads_before_publishes_witness :
    (nodeTickEvents ⟨1, 2, 3⟩ ⟨4, 5, 6⟩ ⟨7, 8, 9⟩ 100)[0]? =
      some (NEv.sensorRead "zone1" "current_mA") ∧
    (nodeTickEvents ⟨1, 2, 3⟩ ⟨4, 5, 6⟩ ⟨7, 8, 9⟩ 100)[9]? =
      some (NEv.pub "/node1/zone1" ⟨"node1", "zone1", 100, 1, 3, 2⟩) ∧
    NEv.isRead (NEv.sensorRead "zone1" "current_mA") = true ∧
    NEv.isPub (NEv.pub "/node1/zone1" ⟨"node1", "zone1", 100, 1, 3, 2⟩) = true ∧
    (0 : ℕ) < 9 :=
  ⟨rfl, rfl, rfl, rfl,
   node_reads_before_publishes ⟨1, 2, 3⟩ ⟨4, 5, 6⟩ ⟨7, 8, 9⟩ 100 0 9 _ _ rfl rfl rfl rfl⟩

/-! ### C7 -/

/-- C7: in the structured-payload (NodeMCU) variant, the three publishes
of a tick go to the three zone topics in order, and each payload carries
exactly the zone's own identifier, the shared tick timestamp, and only
that zone's readings; moreover each zone's published pair is unchanged
when the other zones' readings (or the transport's publish results) are
varied — no cross-zone data leakage. -/
theorem node_zone_payload_isolation (r1 r2 r3 : ZoneReadings) (now : ℤ)
    (res : Fin 3 → Bool) :
    ((nodeTick r1 r2 r3 now res).publishes =
      [("/node1/zone1", ⟨"node1", "zone1", now, r1.current_mA, r1.busvoltage, r1.power_mW⟩),
       ("/node1/zone2", ⟨"node1", "zone2", now, r2.current_mA, r2.busvoltage, r2.power_mW⟩),
       ("/node1/zone3", ⟨"node1", "zone3", now, r3.current_mA, r3.busvoltage, r3.power_mW⟩)]) ∧
    (∀ (r2a r3a : ZoneReadings) (resa : Fin 3 → Bool),
      (nodeTick r1 r2a r3a now resa).publishes[0]? =
        (nodeTick r1 r2 r3 now res).publishes[0]?) ∧
    (∀ (r1a r3a : ZoneReadings) (resa : Fin 3 → Bool),
      (nodeTick r1a r2 r3a now resa).publishes[1]? =
        (nodeTick r1 r2 r3 now res).publishes[1]?) ∧
    (∀ (r1a r2a : ZoneReadings) (resa : Fin 3 → Bool),
      (nodeTick r1a r2a r3 now resa).publishes[2]? =
        (nodeTick r1 r2 r3 now res).publishes[2]?) :=
  ⟨rfl, fun _ _ _ => rfl, fun _ _ _ => rfl, fun _ _ _ => rfl⟩

/-! ### C4 -/

/-- C4 counterexample: in the per-zone structured-payload (NodeMCU)
variant nothing of the tick's outcome records the publish results — with
all three zone publishes failing the tick's entire stored and emitted
outcome is identical to the tick in which all three succeeded, so the
per-call success/failure is not recorded. -/
theorem node_publish_result_not_recorded :
    nodeTick ⟨1, 2, 3⟩ ⟨4, 5, 6⟩ ⟨7, 8, 9⟩ 100 (fun _ => false) =
      nodeTick ⟨1, 2, 3⟩ ⟨4, 5, 6⟩ ⟨7, 8, 9⟩ 100 (fun _ => true) := rfl

/-- C4 amended: the per-metric (ESP) variant records the success/failure
result of each of its five metric publishes and aggregates them into the
status payload, while the per-zone structured-payload (NodeMCU) variant
discards the result of every zone publish: its tick outcome is invariant
under the transport's publish results. -/
theorem publish_result_recording (r : Reading) (res : Fin 5 → Bool)
    (r1 r2 r3 : ZoneReadings) (now : ℤ) (resN resN2 : Fin 3 → Bool) :
    ((espTick r res).publishes.map (fun e => e.2.2) =
      [res 0, res 1, res 2, res 3, res 4] ∧
     (espTick r res).statusPayload =
      (if res 0 && res 1 && res 2 && res 3 && res 4 then "online" else "error")) ∧
    nodeTick r1 r2 r3 now resN = nodeTick r1 r2 r3 now resN2 :=
  ⟨⟨rfl, espTick_statusPayload r res⟩, rfl⟩

/-! ### C5 -/

/-- If the first success of the connectivity oracle after position `k` is
`n` steps away and the retry loop has enough fuel to reach it, the loop
returns, having blocked `delayMs` per failed attempt. -/
theorem retryLoop_first_success (d : ℕ) (oracle : ℕ → Bool) :
    ∀ n fuel k, (∀ i < n, oracle (k + i) = false) → oracle (k + n) = true → n < fuel →
      retryLoop d oracle fuel k = some (d * (k + n)) := by
  intro n
  induction n with
  | zero =>
    intro fuel k h hk hf
    cases fuel with
    | zero => omega
    | succ f =>
      have hk2 : oracle k = true := by simpa using hk
      simp [retryLoop, hk2]
  | succ n ih =>
    intro fuel k h hk hf
    cases fuel with
    | zero => omega
    | succ f =>
      have h0 : oracle k = false := by simpa using h 0 (Nat.succ_pos n)
      have hrest : ∀ i < n, oracle (k + 1 + i) = false := by
        intro i hi
        have := h (i + 1) (by omega)
        simpa [Nat.add_comm, Nat.add_left_comm] using this
      have hk2 : oracle (k + 1 + n) = true := by
        have := hk
        simpa [Nat.add_comm, Nat.add_left_comm] using this
      have := ih f (k + 1) hrest hk2 (by omega)
      rw [retryLoop, h0]
      simp only [Bool.false_eq_true, if_false]
      rw [this]
      congr 1
      ring

/-- The retry loop reports "still retrying" (`none`) exactly when every
attempt it had fuel for failed: it never gives up while failing. -/
theorem retryLoop_none_iff (d : ℕ) (oracle : ℕ → Bool) :
    ∀ fuel k, (retryLoop d oracle fuel k = none ↔ ∀ i < fuel, oracle (k + i) = false) := by
  intro fuel
  induction fuel with
  | zero => intro k; simp [retryLoop]
  | succ f ih =>
    intro k
    rw [retryLoop]
    cases hk : oracle k with
    | false =>
      simp only [Bool.false_eq_true, if_false, ih (k + 1)]
      constructor
      · intro h i hi
        cases i with
        | zero => simpa using hk
        | succ i =>
          have := h i (by omega)
          simpa [Nat.add_comm, Nat.add_left_comm] using this
      · intro h i hi
        have := h (i + 1) (by omega)
        simpa [Nat.add_comm, Nat.add_left_comm] using this
    | true =>
      simp only [if_true]
      constructor
      · intro h
        exact absurd h (Option.some_ne_none _)
      · intro h
        have := h 0 (Nat.succ_pos f)
        simp [hk] at this

/-- C5 counterexample: a WiFi join in which exactly one connectivity check
fails blocks for a total retry delay of 500 ms, not the claimed 5000 ms —
the network-join loop `while (status != connected) { delay(500); }` waits
500 ms per failed attempt. -/
theorem wifi_retry_delay_500_not_5000 :
    setup_wifi (fun k => decide (k = 1)) 10 = some 500 ∧ (500 : ℕ) ≠ 5000 := by
  constructor
  · rfl
  · norm_num

/-- C5 amended: reconnection is retried with no upper bound until success
in both loops, but the per-failed-attempt blocking delay is 500 ms for the
WiFi join (`setup_wifi`) and 5000 ms for the MQTT connect (`reconnect_mqtt`
in the ESP variant, `reconnect` in the NodeMCU variant); a loop reports
still-retrying after `fuel` attempts exactly when all of them failed. -/
theorem retry_delay_per_attempt (oracle : ℕ → Bool) (n fuel : ℕ)
    (h : ∀ i < n, oracle i = false) (hn : oracle n = true) (hf : n < fuel) :
    setup_wifi oracle fuel = some (500 * n) ∧
    reconnect_mqtt oracle fuel = some (5000 * n) ∧
    reconnect oracle fuel = some (5000 * n) ∧
    (∀ d fuel2, retryLoop d oracle fuel2 0 = none ↔ ∀ i < fuel2, oracle i = false) := by
  have h0 : ∀ i < n, oracle (0 + i) = false := by simpa using h
  have hn0 : oracle (0 + n) = true := by simpa using hn
  refine ⟨?_, ?_, ?_, ?_⟩
  · have := retryLoop_first_success 500 oracle n fuel 0 h0 hn0 hf
    simpa [setup_wifi] using this
  · have := retryLoop_first_success 5000 oracle n fuel 0 h0 hn0 hf
    simpa [reconnect_mqtt] using this
  · have := retryLoop_first_success 5000 oracle n fuel 0 h0 hn0 hf
    simpa [reconnect] using this
  · intro d fuel2
    simpa using retryLoop_none_iff d oracle fuel2 0

/-- Witness for the amended C5: two failed attempts then success — the
WiFi join blocked 1000 ms in total, the MQTT connect 10000 ms. -/
theorem retry_delay_per_attempt_witness :
    setup_wifi (fun k => decide (k = 2)) 5 = some (500 * 2) ∧
    reconnect_mqtt (fun k => decide (k = 2)) 5 = some (5000 * 2) ∧
    reconnect (fun k => decide (k = 2)) 5 = some (5000 * 2) ∧
    (∀ d fuel2, retryLoop d (fun k => decide (k = 2)) fuel2 0 = none ↔
      ∀ i < fuel2, (fun k => decide (k = 2)) i = false) :=
  retry_delay_per_attempt (fun k => decide (k = 2)) 2 5
    (by intro i hi; interval_cases i <;> rfl) rfl (by norm_num)

/-! ### C8 -/

/-- Padding to a minimum width of 6 yields the maximum of 6 and the
original length. -/
theorem padTo6_length (s : String) : (padTo6 s).length = max 6 s.length := by
  rw [padTo6, String.length_append, String.length_mk, List.length_replicate]
  omega

/-- The digit characters produced for values below ten really are decimal
digits. -/
theorem digitChar_isDigit (n : ℕ) (h : n < 10) : (Nat.digitChar n).isDigit = true := by
  interval_cases n <;> rfl

/-- Format of every `dtostrf(·, 6, 3, ·)` output: at least 6 characters in
total (the width argument is a minimum, padded with spaces), ending in a
decimal point followed by exactly three fraction digits. -/
theorem dtostrf63_format (v : ℚ) :
    6 ≤ (dtostrf63 v).length ∧
    ∃ (pre : List Char) (d1 d2 d3 : Char),
      (dtostrf63 v).data = pre ++ '.' :: [d1, d2, d3] ∧
      d1.isDigit = true ∧ d2.isDigit = true ∧ d3.isDigit = true := by
  constructor
  · rw [dtostrf63, padTo6_length]
    exact le_max_left _ _
  · refine ⟨List.replicate (6 - (dtostrf63core v).length) ' ' ++
      (((if v < 0 then "-" else "") : String).data ++
        (toString ((round3 |v|).toNat / 1000)).data),
      Nat.digitChar ((round3 |v|).toNat % 1000 / 100 % 10),
      Nat.digitChar ((round3 |v|).toNat % 1000 / 10 % 10),
      Nat.digitChar ((round3 |v|).toNat % 1000 % 10), ?_, ?_, ?_, ?_⟩
    · have hcore : (dtostrf63core v).data =
          (((if v < 0 then "-" else "") : String).data ++
            (toString ((round3 |v|).toNat / 1000)).data) ++
          '.' :: [Nat.digitChar ((round3 |v|).toNat % 1000 / 100 % 10),
                  Nat.digitChar ((round3 |v|).toNat % 1000 / 10 % 10),
                  Nat.digitChar ((round3 |v|).toNat % 1000 % 10)] := by
        simp [dtostrf63core, String.data_append, natDigits3, List.append_assoc]
      rw [dtostrf63, padTo6, String.data_append, hcore]
      simp [List.append_assoc]
    · exact digitChar_isDigit _ (by omega)
    · exact digitChar_isDigit _ (by omega)
    · exact digitChar_isDigit _ (by omega)

/-- C8 counterexample: with a power reading of 1234.5 mW the per-metric
payload published for power is "1234.500", 8 characters long — `dtostrf`'s
width argument 6 is only a minimum, so the payload is not always exactly
6 characters. -/
theorem metric_payload_not_width6 :
    (espTick ⟨0, 0, 0, 2469 / 2⟩ (fun _ => true)).publishes[4]? =
      some (topic_power, "1234.500", true) ∧ "1234.500".length ≠ 6 := by
  have hr : round3 |(2469 : ℚ) / 2| = 1234500 := by
    have habs : |(2469 : ℚ) / 2| = 2469 / 2 := abs_of_nonneg (by norm_num)
    have hval : (2469 : ℚ) / 2 * 1000 + 1 / 2 = 2469001 / 2 := by norm_num
    rw [round3, habs, hval, Int.floor_eq_iff]
    constructor <;> norm_num
  have hv : dtostrf63 ((2469 : ℚ) / 2) = "1234.500" := by
    rw [dtostrf63, dtostrf63core, hr, if_neg (by norm_num : ¬((2469 : ℚ) / 2 < 0))]
    rfl
  constructor
  · have h4 : (espTick ⟨0, 0, 0, 2469 / 2⟩ (fun _ => true)).publishes[4]? =
        some (topic_power, dtostrf63 ((2469 : ℚ) / 2), true) := rfl
    rw [h4, hv]
  · decide

/-- C8 amended: every payload published by a tick of the per-metric (ESP)
variant is a decimal string with exactly 3 fraction digits after its
decimal point and a total length of at least 6 characters (exactly 6 only
while the value is narrow enough; wider values yield longer strings). -/
theorem metric_payload_format (r : Reading) (res : Fin 5 → Bool)
    (e : String × String × Bool) (he : e ∈ (espTick r res).publishes) :
    6 ≤ e.2.1.length ∧
    ∃ (pre : List Char) (d1 d2 d3 : Char),
      e.2.1.data = pre ++ '.' :: [d1, d2, d3] ∧
      d1.isDigit = true ∧ d2.isDigit = true ∧ d3.isDigit = true := by
  have hv : ∃ v : ℚ, e.2.1 = dtostrf63 v := by
    simp only [espTick, List.mem_cons, List.not_mem_nil, or_false] at he
    rcases he with h | h | h | h | h <;> exact ⟨_, by rw [h]⟩
  obtain ⟨v, hveq⟩ := hv
  rw [hveq]
  exact dtostrf63_format v

/-- Witness for the amended C8: the bus-voltage payload of a concrete tick
is a member of the tick's publishes and has the required format. -/
theorem metric_payload_format_witness :
    (topic_bus_voltage, dtostrf63 12, true) ∈
      (espTick ⟨0, 12, 0, 0⟩ (fun _ => true)).publishes ∧
    (6 ≤ (dtostrf63 (12 : ℚ)).length ∧
     ∃ (pre : List Char) (d1 d2 d3 : Char),
       (dtostrf63 (12 : ℚ)).data = pre ++ '.' :: [d1, d2, d3] ∧
       d1.isDigit = true ∧ d2.isDigit = true ∧ d3.isDigit = true) :=
  ⟨by simp [espTick],
   metric_payload_format ⟨0, 12, 0, 0⟩ (fun _ => true) (topic_bus_voltage, dtostrf63 12, true)
     (by simp [espTick])⟩

end Microgrid
